import Mathlib

/-!
Verification of the RHSTOR JIRA tooling (stories.py, view.py).

The Python sources are embedded shallowly: pure helpers become Lean
functions on `String`/`List Char`; the JIRA client is modelled as an
oracle (functions supplied as parameters), where `none`/`false` results
model the underlying call raising an exception; optional/absent Python
arguments become `Option String`, and Python string truthiness is the
`truthy` predicate below.
-/

namespace RHStor

/-- Python truthiness of an optional string: `None` and `""` are falsy. -/
def truthy : Option String → Bool
  | none => false
  | some s => !(s == "")

/-- Unwrap an optional string; callers only use this under `truthy`. -/
def strval : Option String → String
  | none => ""
  | some s => s

/-- Model of Python `str.lower()` (ASCII case folding on the char list). -/
def toLowerStr (s : String) : String :=
  ⟨s.data.map Char.toLower⟩

/-- Whether `pat` occurs as a contiguous sublist of the text. -/
def infixOfChars (pat : List Char) : List Char → Bool
  | [] => pat.isEmpty
  | c :: cs => pat.isPrefixOf (c :: cs) || infixOfChars pat cs

/-- Model of Python `pat in s` on strings: substring containment. -/
def strContains (s pat : String) : Bool :=
  infixOfChars pat.data s.data

/-- Consume one-or-more leading decimal digits; `none` when the first
character is not a digit, otherwise the remainder after the maximal
digit run. -/
def chompDigits : List Char → Option (List Char)
  | [] => none
  | c :: cs => if c.isDigit then some (cs.dropWhile Char.isDigit) else none

/-- Anchored matcher for the version pattern shared by both tools
(stories.py line 51 and view.py line 53): one-or-more digits, a dot,
one-or-more digits, optionally a dot and one-or-more digits, end of
string. Maximal-munch is exact here because a dot is never a digit. -/
def matchVersionChars (cs : List Char) : Bool :=
  match chompDigits cs with
  | none => false
  | some r1 =>
    match r1 with
    | '.' :: r2 =>
      match chompDigits r2 with
      | none => false
      | some r3 =>
        match r3 with
        | [] => true
        | '.' :: r4 =>
          match chompDigits r4 with
          | some [] => true
          | _ => false
        | _ => false
    | _ => false

/-- String-level entry point of the version regex. -/
def matchVersion (s : String) : Bool :=
  matchVersionChars s.data

/-- Outcome of the query-building phase of a fetch function: either the
function bailed out on validation (returning `[]` before any search),
or it issues exactly one search with the built query. -/
inductive FetchOutcome where
  | invalid : FetchOutcome
  | search (query : String) : FetchOutcome
deriving DecidableEq

/-- Execute a fetch outcome against a search oracle.  The oracle maps a
query to `some issues`, or `none` when the underlying call raises (the
Python code catches this and returns `[]`).  The second component lists
the queries actually sent to the tracker. -/
def runSearch {α : Type} (search : String → Option (List α)) :
    FetchOutcome → List α × List String
  | .invalid => ([], [])
  | .search q =>
    match search q with
    | some issues => (issues, [q])
    | none => ([], [q])

namespace stories

/-- stories.py lines 24-31. -/
def ALLOWED_STATUSES : List String :=
  ["To Do", "In Progress", "Code Review", "ON_QA", "Verified", "Closed"]

/-- stories.py lines 47-52: empty/absent input is accepted, otherwise
the version regex decides. -/
def validate_fix_version (version : Option String) : Bool :=
  match version with
  | none => true
  | some v => if v == "" then true else matchVersion v

/-- stories.py lines 54-58. -/
def transform_fix_version (fix_version : Option String) : Option String :=
  match fix_version with
  | none => none
  | some v => if v == "" then none else some ("ODF v" ++ v ++ ".0")

/-- stories.py lines 60-62. -/
def validate_status (status : String) : Bool :=
  ALLOWED_STATUSES.contains status

/-- Query-construction phase of stories.py `fetch_epics_by_criteria`
(lines 64-105): clause accumulation, validation early-returns, and the
default-label fallback. -/
def fetch_epics_query (label fix_version status : Option String) : FetchOutcome :=
  let base_query := "project = RHSTOR AND issuetype = Epic"
  let parts1 : List String :=
    if truthy label then ["labels = \"" ++ strval label ++ "\""] else []
  if truthy fix_version && !(validate_fix_version fix_version) then .invalid
  else
    let parts2 : List String :=
      if truthy fix_version then
        parts1 ++ ["fixVersion = \"" ++ strval (transform_fix_version fix_version) ++ "\""]
      else parts1
    if truthy status && !(validate_status (strval status)) then .invalid
    else
      let parts3 : List String :=
        if truthy status then parts2 ++ ["status = \"" ++ strval status ++ "\""] else parts2
      if parts3.isEmpty then
        .search (base_query ++ " AND labels = \"" ++ "ODF-4.19-candidate" ++ "\"")
      else
        .search (base_query ++ " AND " ++ String.intercalate (" AND ") parts3)

/-- stories.py `fetch_epics_by_criteria` run against a search oracle:
result list together with the queries issued. -/
def fetch_epics_by_criteria {α : Type} (search : String → Option (List α))
    (label fix_version status : Option String) : List α × List String :=
  runSearch search (fetch_epics_query label fix_version status)

/-- The first existence query of `check_existing_stories`
(stories.py line 112). -/
def kcs_query (epic_key : String) : String :=
  "project = RHSTOR AND issuetype = Story AND \"Epic Link\" = " ++ epic_key ++
    " AND (labels = \"kcs\" OR summary ~ \"kcs\")"

/-- The second existence query of `check_existing_stories`
(stories.py line 115). -/
def happy_query (epic_key : String) : String :=
  "project = RHSTOR AND issuetype = Story AND \"Epic Link\" = " ++ epic_key ++
    " AND (labels = \"happy-path\" OR summary ~ \"happy\")"

/-- Return value of `check_existing_stories`. -/
structure ExistingStories (α : Type) where
  kcs : List α
  happy : List α
  has_kcs : Bool
  has_happy : Bool
deriving DecidableEq

/-- stories.py lines 107-133.  The oracle takes the query and the
`maxResults` argument; `none` models the search call raising, which the
source catches, answering all-empty/false. -/
def check_existing_stories {α : Type} (search : String → Nat → Option (List α))
    (epic_key : String) : ExistingStories α :=
  match search (kcs_query epic_key) 10 with
  | none => ⟨[], [], false, false⟩
  | some kcs_stories =>
    match search (happy_query epic_key) 10 with
    | none => ⟨[], [], false, false⟩
    | some happy_stories =>
      ⟨kcs_stories, happy_stories,
        decide (kcs_stories.length > 0), decide (happy_stories.length > 0)⟩

/-- One entry of the field metadata returned by the tracker. -/
structure JField where
  name : String
  id : String
deriving DecidableEq

/-- Tier-1 test of `find_epic_link_field` (stories.py line 143): exact
case-insensitive match on the field name. -/
def tier1_match (f : JField) : Bool :=
  toLowerStr f.name == "epic link" || toLowerStr f.name == "epic name"

/-- Tier-2 test of `find_epic_link_field` (stories.py line 150): the
lowercase name contains both fragments. -/
def tier2_match (f : JField) : Bool :=
  strContains (toLowerStr f.name) ("epic") && strContains (toLowerStr f.name) ("link")

/-- stories.py lines 135-160.  `none` for the argument models the
`jira.fields()` call raising, which the source catches, returning None. -/
def find_epic_link_field (all_fields : Option (List JField)) : Option String :=
  match all_fields with
  | none => none
  | some fields =>
    match fields.find? tier1_match with
    | some f => some f.id
    | none =>
      match fields.find? tier2_match with
      | some f => some f.id
      | none => none

/-- A story template (summary/description patterns and optional story
points, stories.py lines 34-45). -/
structure StoryTemplate where
  summary : String
  description : String
  story_points : Option Nat
deriving DecidableEq

/-- DEFAULT_STORY_TEMPLATES[0] (stories.py lines 35-39). -/
def kcs_template : StoryTemplate :=
  { summary := "KCS story for {epic_key}"
    description := "For a dev preview epic, we need to add a KCS article.\nPlease use the following link to create a KCS and reach out to Lijo to publish the same.\n\nhttps://access.redhat.com/node/add/kcs-solution\n\n*Related Epic:* {epic_key}\n*Epic Summary:* {epic_summary}"
    story_points := some 3 }

/-- DEFAULT_STORY_TEMPLATES[1] (stories.py lines 40-44). -/
def happy_template : StoryTemplate :=
  { summary := "Happy Path Validation Story for {epic_key}"
    description := "Happy Path Validation:\n\n1) The epic should be moved to ON_QA only if the happy path validation steps are provided. Please add the steps.\n\n2) Make sure that the steps are clear and easy to follow.\n\n3) Steps must be tested on a downstream setup.\n\n*Related Epic:* {epic_key}\n*Epic Summary:* {epic_summary}"
    story_points := some 5 }

/-- stories.py lines 34-45. -/
def DEFAULT_STORY_TEMPLATES : List StoryTemplate :=
  [kcs_template, happy_template]

/-- The `epic_key` placeholder recognised by `str.format`. -/
def epic_key_pat : List Char := "{epic_key}".data

/-- The `epic_summary` placeholder recognised by `str.format`. -/
def epic_summary_pat : List Char := "{epic_summary}".data

/-- Single pass of Python `str.format(epic_key=key, epic_summary=summ)`
over the pattern characters: each placeholder occurrence is replaced by
the corresponding value, which is never rescanned.  The fuel argument,
instantiated with the pattern length, only serves structural
termination; every step consumes at least one pattern character. -/
def renderAux (key summ : List Char) : Nat → List Char → List Char
  | 0, _ => []
  | _ + 1, [] => []
  | fuel + 1, c :: cs =>
    if epic_key_pat.isPrefixOf (c :: cs) then
      key ++ renderAux key summ fuel ((c :: cs).drop epic_key_pat.length)
    else if epic_summary_pat.isPrefixOf (c :: cs) then
      summ ++ renderAux key summ fuel ((c :: cs).drop epic_summary_pat.length)
    else
      c :: renderAux key summ fuel cs

/-- Model of `template.format(epic_key=..., epic_summary=...)` as used
in stories.py lines 166-173. -/
def renderTemplate (pat key summ : String) : String :=
  ⟨renderAux key.data summ.data pat.data.length pat.data⟩

/-- An epic as consumed by `create_story`: key, summary and the
assignee's account name (absent when unassigned). -/
structure Epic where
  key : String
  summary : String
  assignee : Option String
deriving DecidableEq

/-- The field set assembled for `jira.create_issue`
(stories.py lines 183-216). -/
structure StoryFields where
  project : String
  summary : String
  description : String
  issuetype : String
  labels : Option (List String)
  assignee : Option String
  epic_link : Option (String × String)
deriving DecidableEq

/-- Oracle for the tracker calls made by `create_story`.  `none` results
and `false` results model the corresponding call raising. -/
structure JiraEnv where
  fields_for_resolver : Option (List JField)
  create_issue : StoryFields → Option String
  fields_for_method2 : Option (List JField)
  update : String → String → Bool
  issue_link_types : Option (List String)
  create_issue_link : String → Bool

/-- Field assembly of `create_story` (stories.py lines 165-216):
rendered summary/description, label derived from the template's summary
pattern, fixed project/issue type, assignee copied from the epic, and
the epic-link custom field when the resolver found one. -/
def assemble_story_fields (env : JiraEnv) (epic : Epic) (template : StoryTemplate)
    (project_key : String) : StoryFields :=
  let story_summary := renderTemplate template.summary epic.key epic.summary
  let story_description := renderTemplate template.description epic.key epic.summary
  let story_label : Option String :=
    if strContains template.summary ("KCS story for") then some ("kcs")
    else if strContains template.summary ("Happy Path Validation Story for") then some ("happy-path")
    else none
  { project := project_key
    summary := story_summary
    description := story_description
    issuetype := "Story"
    labels := story_label.map (fun l => [l])
    assignee := epic.assignee
    epic_link := (find_epic_link_field env.fields_for_resolver).map (fun fid => (fid, epic.key)) }

/-- Field test of linkage method 2 (stories.py line 242): exact lowered
name or any name containing the fragment. -/
def method2_field_match (f : JField) : Bool :=
  toLowerStr f.name == "epic link" || strContains (toLowerStr f.name) ("epic")

/-- Hard-coded custom-field candidates of linkage method 3
(stories.py line 263). -/
def method3_fields : List String :=
  ["customfield_10001", "customfield_10008", "customfield_10014", "customfield_10002"]

/-- Linkage method 3 (stories.py lines 261-278): try each candidate
field in turn, stopping at the first successful update; every attempted
update is recorded. -/
def try_update_fields (update : String → String → Bool) (value : String) :
    List String → List (String × String) × Bool
  | [] => ([], false)
  | f :: fs =>
    if update f value then ([(f, value)], true)
    else
      let r := try_update_fields update value fs
      ((f, value) :: r.1, r.2)

/-- Link-type choice of linkage method 4 (stories.py lines 284-293):
first type whose lowered name contains the fragment, else "Relates". -/
def pick_link_type (link_types : List String) : String :=
  match link_types.find? (fun lt => strContains (toLowerStr lt) ("epic")) with
  | some lt => lt
  | none => "Relates"

/-- Observable effect of one `create_story` call: the field set sent to
`create_issue`, the created story key (None when creation raised), every
`story.update` linkage call attempted, every issue-link creation
attempted, and the final linked flag. -/
structure CreateTrace where
  sent_fields : StoryFields
  created : Option String
  update_calls : List (String × String)
  link_calls : List String
  linked : Bool
deriving DecidableEq

/-- stories.py lines 162-331.  When `create_issue` raises, the outer
handler returns None with no linkage attempted.  When the epic-link
field was resolved before creation, the link is set in the creation
field set and all post-creation linkage methods are skipped; otherwise
methods 2-4 run in order until one succeeds. -/
def create_story (env : JiraEnv) (epic : Epic) (template : StoryTemplate)
    (project_key : String := "RHSTOR") : CreateTrace :=
  let story_fields := assemble_story_fields env epic template project_key
  let epic_link_added_during_creation := (find_epic_link_field env.fields_for_resolver).isSome
  match env.create_issue story_fields with
  | none =>
    { sent_fields := story_fields, created := none,
      update_calls := [], link_calls := [], linked := false }
  | some story_key =>
    if epic_link_added_during_creation then
      { sent_fields := story_fields, created := some story_key,
        update_calls := [], link_calls := [], linked := true }
    else
      let m2 : List (String × String) × Bool :=
        match env.fields_for_method2 with
        | none => ([], false)
        | some all_fields =>
          match all_fields.find? method2_field_match with
          | some f => ([(f.id, epic.key)], env.update f.id epic.key)
          | none => ([], false)
      let m3 : List (String × String) × Bool :=
        if m2.2 then ([], false) else try_update_fields env.update epic.key method3_fields
      let linked_after_updates := m2.2 || m3.2
      let m4 : List String × Bool :=
        if linked_after_updates then ([], false)
        else
          match env.issue_link_types with
          | none => ([], false)
          | some link_types =>
            let t := pick_link_type link_types
            ([t], env.create_issue_link t)
      { sent_fields := story_fields
        created := some story_key
        update_calls := m2.1 ++ m3.1
        link_calls := m4.1
        linked := linked_after_updates || m4.2 }

end stories

namespace view

/-- view.py lines 24-31. -/
def ALLOWED_STATUSES : List String :=
  ["To Do", "In Progress", "Code Review", "ON_QA", "Verified", "Closed"]

/-- view.py lines 39-54: empty/absent input is rejected, otherwise the
version regex decides. -/
def validate_fix_version (version : Option String) : Bool :=
  match version with
  | none => false
  | some v => if v == "" then false else matchVersion v

/-- view.py lines 57-70. -/
def validate_status (status : Option String) : Bool :=
  match status with
  | none => false
  | some s => if s == "" then false else ALLOWED_STATUSES.contains s

/-- view.py lines 73-86. -/
def transform_fix_version (fix_version : Option String) : Option String :=
  match fix_version with
  | none => none
  | some v => if v == "" then none else some ("ODF v" ++ v ++ ".0")

/-- Query-construction phase of view.py `fetch_epics_by_criteria`
(lines 187-246). -/
def fetch_epics_query (label fix_version status : Option String) : FetchOutcome :=
  let base_query := "project = RHSTOR AND issuetype = Epic"
  let parts1 : List String :=
    if truthy label then ["labels = \"" ++ strval label ++ "\""] else []
  if truthy fix_version && !(validate_fix_version fix_version) then .invalid
  else
    let parts2 : List String :=
      if truthy fix_version then
        parts1 ++ ["fixVersion = \"" ++ strval (transform_fix_version fix_version) ++ "\""]
      else parts1
    if truthy status && !(validate_status status) then .invalid
    else
      let parts3 : List String :=
        if truthy status then parts2 ++ ["status = \"" ++ strval status ++ "\""] else parts2
      if parts3.isEmpty then
        .search (base_query ++ " AND labels = \"" ++ "ODF-4.19-candidate" ++ "\"")
      else
        .search (base_query ++ " AND " ++ String.intercalate (" AND ") parts3)

/-- view.py `fetch_epics_by_criteria` run against a search oracle. -/
def fetch_epics_by_criteria {α : Type} (search : String → Option (List α))
    (label fix_version status : Option String) : List α × List String :=
  runSearch search (fetch_epics_query label fix_version status)

/-- Query-construction phase of view.py `fetch_epics_for_status_summary`
(lines 100-140): no status clause is ever built, and with no filters the
bare base query is used (no default-label fallback). -/
def fetch_status_summary_query (label fix_version : Option String) : FetchOutcome :=
  let base_query := "project = RHSTOR AND issuetype = Epic"
  let parts1 : List String :=
    if truthy label then ["labels = \"" ++ strval label ++ "\""] else []
  if truthy fix_version && !(validate_fix_version fix_version) then .invalid
  else
    let parts2 : List String :=
      if truthy fix_version then
        parts1 ++ ["fixVersion = \"" ++ strval (transform_fix_version fix_version) ++ "\""]
      else parts1
    if parts2.isEmpty then .search base_query
    else .search (base_query ++ " AND " ++ String.intercalate (" AND ") parts2)

/-- view.py `fetch_epics_for_status_summary` run against a search oracle. -/
def fetch_epics_for_status_summary {α : Type} (search : String → Option (List α))
    (label fix_version : Option String) : List α × List String :=
  runSearch search (fetch_status_summary_query label fix_version)

end view

/-! Claim-side definitions: the query shapes the specification describes,
written from its words, to be compared with the builders above. -/

/-- Query that the specification describes for `fetch_epics_by_criteria`:
the base clause ANDed with one equality clause per supplied filter in the
fixed order label, fix-version (on the transformed tag), status; with no
filters, the default-label clause. -/
def claimed_epics_query (label fix_version status : Option String) : String :=
  let clauses : List String :=
    (if truthy label then ["labels = \"" ++ strval label ++ "\""] else []) ++
    (if truthy fix_version then
      ["fixVersion = \"" ++ ("ODF v" ++ strval fix_version ++ ".0") ++ "\""] else []) ++
    (if truthy status then ["status = \"" ++ strval status ++ "\""] else [])
  if clauses.isEmpty then
    "project = RHSTOR AND issuetype = Epic" ++ " AND labels = \"" ++ "ODF-4.19-candidate" ++ "\""
  else
    "project = RHSTOR AND issuetype = Epic" ++ " AND " ++ String.intercalate (" AND ") clauses

/-- Query that the claim describes for `fetch_epics_for_status_summary`:
label and fix-version clauses only, and the bare base clause (no
default-label fallback) when neither is supplied. -/
def claimed_summary_query (label fix_version : Option String) : String :=
  let clauses : List String :=
    (if truthy label then ["labels = \"" ++ strval label ++ "\""] else []) ++
    (if truthy fix_version then
      ["fixVersion = \"" ++ ("ODF v" ++ strval fix_version ++ ".0") ++ "\""] else [])
  if clauses.isEmpty then "project = RHSTOR AND issuetype = Epic"
  else
    "project = RHSTOR AND issuetype = Epic" ++ " AND " ++ String.intercalate (" AND ") clauses

/-! Helper lemmas shared across the claim proofs. -/

theorem stories_transform_strval (f : Option String) (h : truthy f = true) :
    strval (stories.transform_fix_version f) = "ODF v" ++ strval f ++ ".0" := by
  cases f with
  | none => simp [truthy] at h
  | some v =>
    simp only [truthy, Bool.not_eq_true'] at h
    simp [stories.transform_fix_version, strval, h]

theorem view_transform_strval (f : Option String) (h : truthy f = true) :
    strval (view.transform_fix_version f) = "ODF v" ++ strval f ++ ".0" := by
  cases f with
  | none => simp [truthy] at h
  | some v =>
    simp only [truthy, Bool.not_eq_true'] at h
    simp [view.transform_fix_version, strval, h]

theorem validate_fix_version_agree (f : Option String) (h : truthy f = true) :
    view.validate_fix_version f = stories.validate_fix_version f := by
  cases f with
  | none => simp [truthy] at h
  | some v =>
    simp only [truthy, Bool.not_eq_true'] at h
    simp [view.validate_fix_version, stories.validate_fix_version, h]

theorem validate_status_agree (s : Option String) (h : truthy s = true) :
    view.validate_status s = stories.validate_status (strval s) := by
  cases s with
  | none => simp [truthy] at h
  | some v =>
    simp only [truthy, Bool.not_eq_true'] at h
    simp [view.validate_status, stories.validate_status, view.ALLOWED_STATUSES,
      stories.ALLOWED_STATUSES, strval, h]

/-! Claim theorems. -/

/-- Claim C1: for every non-empty string v both validators agree with
the version regex, while for empty or absent input the creation tool's
validator returns true and the view tool's returns false. -/
theorem claim_C1 :
    (∀ v : String, v ≠ "" →
      stories.validate_fix_version (some v) = matchVersion v ∧
      view.validate_fix_version (some v) = matchVersion v) ∧
    stories.validate_fix_version (some ("")) = true ∧
    stories.validate_fix_version none = true ∧
    view.validate_fix_version (some ("")) = false ∧
    view.validate_fix_version none = false := by
  refine ⟨fun v hv => ⟨?_, ?_⟩, by decide, by decide, by decide, by decide⟩ <;>
    simp [stories.validate_fix_version, view.validate_fix_version, hv]

/-- Witness for claim C1 at the concrete non-empty version 4.19. -/
theorem claim_C1_witness :
    ("4.19" : String) ≠ "" ∧
    stories.validate_fix_version (some ("4.19")) = matchVersion ("4.19") :=
  ⟨by decide, (claim_C1.1 ("4.19") (by decide)).1⟩

/-- Claim C2: both transforms map null or empty input to null and every
non-empty v to the literal concatenation, giving ODF v4.19.0 for 4.19
and the four-component ODF v4.19.0.0 for 4.19.0, identically in both
tools. -/
theorem claim_C2 :
    (∀ v : Option String, stories.transform_fix_version v = view.transform_fix_version v) ∧
    (∀ v : String, v ≠ "" →
      stories.transform_fix_version (some v) = some ("ODF v" ++ v ++ ".0") ∧
      view.transform_fix_version (some v) = some ("ODF v" ++ v ++ ".0")) ∧
    stories.transform_fix_version (some ("4.19")) = some ("ODF v4.19.0") ∧
    stories.transform_fix_version (some ("4.19.0")) = some ("ODF v4.19.0.0") ∧
    view.transform_fix_version (some ("4.19")) = some ("ODF v4.19.0") ∧
    view.transform_fix_version (some ("4.19.0")) = some ("ODF v4.19.0.0") ∧
    stories.transform_fix_version none = none ∧
    view.transform_fix_version none = none ∧
    stories.transform_fix_version (some ("")) = none ∧
    view.transform_fix_version (some ("")) = none := by
  refine ⟨fun v => ?_, fun v hv => ⟨?_, ?_⟩, by decide, by decide, by decide, by decide,
    by decide, by decide, by decide, by decide⟩
  · cases v <;> rfl
  · simp [stories.transform_fix_version, hv]
  · simp [view.transform_fix_version, hv]

/-- Witness for claim C2 at the concrete non-empty version 4.19. -/
theorem claim_C2_witness :
    ("4.19" : String) ≠ "" ∧
    stories.transform_fix_version (some ("4.19")) = some ("ODF v" ++ "4.19" ++ ".0") :=
  ⟨by decide, (claim_C2.2.1 ("4.19") (by decide)).1⟩

/-- Characterisation of the stories.py query builder under valid filters. -/
theorem stories_fetch_epics_query_spec (label fix_version status : Option String)
    (hf : truthy fix_version = true → stories.validate_fix_version fix_version = true)
    (hs : truthy status = true → stories.validate_status (strval status) = true) :
    stories.fetch_epics_query label fix_version status =
      .search (claimed_epics_query label fix_version status) := by
  rcases Bool.eq_false_or_eq_true (truthy fix_version) with hft | hft
  · have hfv := hf hft
    have htr := stories_transform_strval fix_version hft
    rcases Bool.eq_false_or_eq_true (truthy status) with hst | hst
    · have hsv := hs hst
      rcases Bool.eq_false_or_eq_true (truthy label) with hl | hl <;>
        simp [stories.fetch_epics_query, claimed_epics_query, hft, hst, hl, hfv, hsv, htr]
    · rcases Bool.eq_false_or_eq_true (truthy label) with hl | hl <;>
        simp [stories.fetch_epics_query, claimed_epics_query, hft, hst, hl, hfv, htr]
  · rcases Bool.eq_false_or_eq_true (truthy status) with hst | hst
    · have hsv := hs hst
      rcases Bool.eq_false_or_eq_true (truthy label) with hl | hl <;>
        simp [stories.fetch_epics_query, claimed_epics_query, hft, hst, hl, hsv]
    · rcases Bool.eq_false_or_eq_true (truthy label) with hl | hl <;>
        simp [stories.fetch_epics_query, claimed_epics_query, hft, hst, hl]

/-- Characterisation of the view.py query builder under valid filters. -/
theorem view_fetch_epics_query_spec (label fix_version status : Option String)
    (hf : truthy fix_version = true → view.validate_fix_version fix_version = true)
    (hs : truthy status = true → view.validate_status status = true) :
    view.fetch_epics_query label fix_version status =
      .search (claimed_epics_query label fix_version status) := by
  rcases Bool.eq_false_or_eq_true (truthy fix_version) with hft | hft
  · have hfv := hf hft
    have htr := view_transform_strval fix_version hft
    rcases Bool.eq_false_or_eq_true (truthy status) with hst | hst
    · have hsv := hs hst
      rcases Bool.eq_false_or_eq_true (truthy label) with hl | hl <;>
        simp [view.fetch_epics_query, claimed_epics_query, hft, hst, hl, hfv, hsv, htr]
    · rcases Bool.eq_false_or_eq_true (truthy label) with hl | hl <;>
        simp [view.fetch_epics_query, claimed_epics_query, hft, hst, hl, hfv, htr]
  · rcases Bool.eq_false_or_eq_true (truthy status) with hst | hst
    · have hsv := hs hst
      rcases Bool.eq_false_or_eq_true (truthy label) with hl | hl <;>
        simp [view.fetch_epics_query, claimed_epics_query, hft, hst, hl, hsv]
    · rcases Bool.eq_false_or_eq_true (truthy label) with hl | hl <;>
        simp [view.fetch_epics_query, claimed_epics_query, hft, hst, hl]

/-- Claim C3: with valid filters, both tools build the base clause ANDed
with one equality clause per supplied filter in label, fix-version,
status order (fix-version compared against the transformed tag), and
with no filters they fall back to the default label clause. -/
theorem claim_C3 (label fix_version status : Option String)
    (hf : truthy fix_version = true → stories.validate_fix_version fix_version = true)
    (hs : truthy status = true → stories.validate_status (strval status) = true) :
    stories.fetch_epics_query label fix_version status =
      .search (claimed_epics_query label fix_version status) ∧
    view.fetch_epics_query label fix_version status =
      .search (claimed_epics_query label fix_version status) := by
  refine ⟨stories_fetch_epics_query_spec label fix_version status hf hs,
    view_fetch_epics_query_spec label fix_version status ?_ ?_⟩
  · intro hft
    rw [validate_fix_version_agree fix_version hft]
    exact hf hft
  · intro hst
    rw [validate_status_agree status hst]
    exact hs hst

/-- Witness for claim C3 at a concrete valid label, fix-version, and status. -/
theorem claim_C3_witness :
    (truthy (some ("4.19")) = true → stories.validate_fix_version (some ("4.19")) = true) ∧
    stories.fetch_epics_query (some ("X")) (some ("4.19")) (some ("In Progress")) =
      .search (claimed_epics_query (some ("X")) (some ("4.19")) (some ("In Progress"))) :=
  ⟨by decide,
    (claim_C3 (some ("X")) (some ("4.19")) (some ("In Progress"))
      (by decide) (by decide)).1⟩

/-- Claim C4: an invalid supplied fix-version or status makes both
fetchers return an empty result with zero search calls issued. -/
theorem claim_C4 {α β : Type} (search₁ : String → Option (List α))
    (search₂ : String → Option (List β)) (label fix_version status : Option String)
    (h : ((truthy fix_version && !(stories.validate_fix_version fix_version)) ||
          (truthy status && !(stories.validate_status (strval status)))) = true) :
    stories.fetch_epics_by_criteria search₁ label fix_version status = ([], []) ∧
    view.fetch_epics_by_criteria search₂ label fix_version status = ([], []) := by
  have hq1 : stories.fetch_epics_query label fix_version status = .invalid := by
    rcases Bool.or_eq_true_iff.mp h with hA | hB
    · simp [stories.fetch_epics_query, hA]
    · cases hC : (truthy fix_version && !(stories.validate_fix_version fix_version)) with
      | false => simp [stories.fetch_epics_query, hC, hB]
      | true => simp [stories.fetch_epics_query, hC]
  have hq2 : view.fetch_epics_query label fix_version status = .invalid := by
    rcases Bool.or_eq_true_iff.mp h with hA | hB
    · have hft : truthy fix_version = true := (Bool.and_eq_true_iff.mp hA).1
      have hA2 : (truthy fix_version && !(view.validate_fix_version fix_version)) = true := by
        rw [validate_fix_version_agree fix_version hft]; exact hA
      simp [view.fetch_epics_query, hA2]
    · have hst : truthy status = true := (Bool.and_eq_true_iff.mp hB).1
      have hB2 : (truthy status && !(view.validate_status status)) = true := by
        rw [validate_status_agree status hst]; exact hB
      cases hC : (truthy fix_version && !(view.validate_fix_version fix_version)) with
      | false => simp [view.fetch_epics_query, hC, hB2]
      | true => simp [view.fetch_epics_query, hC]
  exact ⟨by simp [stories.fetch_epics_by_criteria, hq1, runSearch],
         by simp [view.fetch_epics_by_criteria, hq2, runSearch]⟩

/-- Witness for claim C4 at the concrete invalid fix-version input. -/
theorem claim_C4_witness :
    ((truthy (some ("invalid")) &&
      !(stories.validate_fix_version (some ("invalid")))) ||
     (truthy (none : Option String) &&
      !(stories.validate_status (strval (none : Option String))))) = true ∧
    stories.fetch_epics_by_criteria (fun _ => (none : Option (List Nat)))
      none (some ("invalid")) none = ([], []) :=
  ⟨by decide,
    (claim_C4 (fun _ => (none : Option (List Nat))) (fun _ => (none : Option (List Nat)))
      none (some ("invalid")) none (by decide)).1⟩

/-- Claim C10: the status-summary fetcher never builds a status clause
-- its query is the base clause plus at most label and fix-version
clauses -- and with neither supplied the query is exactly the bare base
clause, with no default-label fallback. -/
theorem claim_C10 (label fix_version : Option String)
    (hf : truthy fix_version = true → view.validate_fix_version fix_version = true) :
    view.fetch_status_summary_query label fix_version =
      .search (claimed_summary_query label fix_version) ∧
    (truthy label = false → truthy fix_version = false →
      view.fetch_status_summary_query label fix_version =
        .search ("project = RHSTOR AND issuetype = Epic")) := by
  constructor
  · rcases Bool.eq_false_or_eq_true (truthy fix_version) with hft | hft
    · have hfv := hf hft
      have htr := view_transform_strval fix_version hft
      rcases Bool.eq_false_or_eq_true (truthy label) with hl | hl <;>
        simp [view.fetch_status_summary_query, claimed_summary_query, hl, hft, hfv, htr]
    · rcases Bool.eq_false_or_eq_true (truthy label) with hl | hl <;>
        simp [view.fetch_status_summary_query, claimed_summary_query, hl, hft]
  · intro hl hft
    simp [view.fetch_status_summary_query, hl, hft]

/-- Witness for claim C10 at a concrete valid fix-version and no label. -/
theorem claim_C10_witness :
    (truthy (some ("4.19")) = true → view.validate_fix_version (some ("4.19")) = true) ∧
    view.fetch_status_summary_query none (some ("4.19")) =
      .search (claimed_summary_query none (some ("4.19"))) :=
  ⟨by decide, (claim_C10 none (some ("4.19")) (by decide)).1⟩

/-- Claim C5: the resolver returns the id of a tier-1 field (exact
case-insensitive name match) whenever one exists, even if a tier-2
candidate appears earlier; otherwise the id of some field whose lowered
name contains both fragments; otherwise an absent value, and a raising
metadata fetch also yields an absent value. -/
theorem claim_C5 (fields : List stories.JField) :
    ((∃ f ∈ fields, stories.tier1_match f = true) →
      ∃ f ∈ fields, stories.tier1_match f = true ∧
        stories.find_epic_link_field (some fields) = some f.id) ∧
    ((∀ f ∈ fields, stories.tier1_match f = false) →
      (∃ f ∈ fields, stories.tier2_match f = true) →
      ∃ f ∈ fields, stories.tier2_match f = true ∧
        stories.find_epic_link_field (some fields) = some f.id) ∧
    ((∀ f ∈ fields, stories.tier1_match f = false ∧ stories.tier2_match f = false) →
      stories.find_epic_link_field (some fields) = none) ∧
    stories.find_epic_link_field none = none := by
  refine ⟨?_, ?_, ?_, rfl⟩
  · rintro ⟨f, hmem, hp⟩
    have hsome : (fields.find? stories.tier1_match).isSome :=
      List.find?_isSome.mpr ⟨f, hmem, hp⟩
    obtain ⟨g, hg⟩ := Option.isSome_iff_exists.mp hsome
    exact ⟨g, List.mem_of_find?_eq_some hg, List.find?_some hg, by
      simp [stories.find_epic_link_field, hg]⟩
  · intro h1 h2
    have hnone : fields.find? stories.tier1_match = none :=
      List.find?_eq_none.mpr (fun x hx => by simp [h1 x hx])
    rcases h2 with ⟨f, hmem, hp⟩
    have hsome : (fields.find? stories.tier2_match).isSome :=
      List.find?_isSome.mpr ⟨f, hmem, hp⟩
    obtain ⟨g, hg⟩ := Option.isSome_iff_exists.mp hsome
    exact ⟨g, List.mem_of_find?_eq_some hg, List.find?_some hg, by
      simp [stories.find_epic_link_field, hnone, hg]⟩
  · intro h
    have h1 : fields.find? stories.tier1_match = none :=
      List.find?_eq_none.mpr (fun x hx => by simp [(h x hx).1])
    have h2 : fields.find? stories.tier2_match = none :=
      List.find?_eq_none.mpr (fun x hx => by simp [(h x hx).2])
    simp [stories.find_epic_link_field, h1, h2]

/-- Field metadata for the C5 witness: a tier-2 candidate listed before
the exact-match field, as in the specification's example. -/
def c5_fields : List stories.JField :=
  [⟨"Epic-related-thing-link", "cf_1"⟩, ⟨"Epic Link", "cf_2"⟩]

/-- Witness for claim C5: tier 1 wins over the earlier tier-2 candidate. -/
theorem claim_C5_witness :
    (∃ f ∈ c5_fields, stories.tier1_match f = true) ∧
    ∃ f ∈ c5_fields, stories.tier1_match f = true ∧
      stories.find_epic_link_field (some c5_fields) = some f.id :=
  ⟨by decide, (claim_C5 c5_fields).1 (by decide)⟩

/-- Claim C6: with the KCS template, an assigned epic, and a pre-resolved
epic-link field, the creation field set has project RHSTOR, rendered
summary/description, issue type Story, labels [kcs], the assignee copied
by name, and the epic-link field set to the epic's key; no post-creation
linkage calls are attempted. -/
theorem claim_C6 (env : stories.JiraEnv) (epic : stories.Epic) (a fid : String)
    (ha : epic.assignee = some a)
    (hf : stories.find_epic_link_field env.fields_for_resolver = some fid) :
    (stories.create_story env epic stories.kcs_template).sent_fields =
      { project := "RHSTOR"
        summary := stories.renderTemplate stories.kcs_template.summary epic.key epic.summary
        description := stories.renderTemplate stories.kcs_template.description epic.key epic.summary
        issuetype := "Story"
        labels := some [("kcs")]
        assignee := some a
        epic_link := some ((fid, epic.key)) } ∧
    (stories.create_story env epic stories.kcs_template).update_calls = [] ∧
    (stories.create_story env epic stories.kcs_template).link_calls = [] := by
  have hc : strContains stories.kcs_template.summary ("KCS story for") = true := by decide
  have hlink : (stories.find_epic_link_field env.fields_for_resolver).isSome = true := by
    rw [hf]; rfl
  have tr_eq : stories.create_story env epic stories.kcs_template =
      { sent_fields := stories.assemble_story_fields env epic stories.kcs_template ("RHSTOR")
        created := env.create_issue
          (stories.assemble_story_fields env epic stories.kcs_template ("RHSTOR"))
        update_calls := []
        link_calls := []
        linked := (env.create_issue
          (stories.assemble_story_fields env epic stories.kcs_template ("RHSTOR"))).isSome } := by
    unfold stories.create_story
    cases hcr : env.create_issue
        (stories.assemble_story_fields env epic stories.kcs_template ("RHSTOR")) <;>
      simp [hcr, hlink]
  rw [tr_eq]
  refine ⟨?_, rfl, rfl⟩
  simp [stories.assemble_story_fields, ha, hf, hc]

/-- Oracle for the C6 witness: resolvable epic-link field, successful
creation. -/
def c6_env : stories.JiraEnv :=
  { fields_for_resolver :=
      some [⟨"Summary", "summary"⟩, ⟨"Epic Link", "customfield_10008"⟩, ⟨"Priority", "priority"⟩]
    create_issue := fun _ => some ("RHSTOR-2001")
    fields_for_method2 := none
    update := fun _ _ => false
    issue_link_types := none
    create_issue_link := fun _ => false }

/-- Epic for the C6 witness. -/
def c6_epic : stories.Epic :=
  { key := "RHSTOR-1234", summary := "Test Epic Summary", assignee := some ("testuser") }

/-- Witness for claim C6 at a concrete epic and oracle. -/
theorem claim_C6_witness :
    c6_epic.assignee = some ("testuser") ∧
    stories.find_epic_link_field c6_env.fields_for_resolver = some ("customfield_10008") ∧
    (stories.create_story c6_env c6_epic stories.kcs_template).update_calls = [] ∧
    (stories.create_story c6_env c6_epic stories.kcs_template).link_calls = [] :=
  ⟨rfl, by decide,
    (claim_C6 c6_env c6_epic ("testuser") ("customfield_10008") rfl (by decide)).2.1,
    (claim_C6 c6_env c6_epic ("testuser") ("customfield_10008") rfl (by decide)).2.2⟩

/-- Claim C7: when the issue-creation call raises, create_story returns
the no-story-created signal and attempts no linkage calls of any kind. -/
theorem claim_C7 (env : stories.JiraEnv) (epic : stories.Epic)
    (template : stories.StoryTemplate)
    (h : env.create_issue (stories.assemble_story_fields env epic template ("RHSTOR")) = none) :
    (stories.create_story env epic template).created = none ∧
    (stories.create_story env epic template).update_calls = [] ∧
    (stories.create_story env epic template).link_calls = [] := by
  refine ⟨?_, ?_, ?_⟩ <;> simp [stories.create_story, h]

/-- Oracle for the C7 witness: issue creation always raises. -/
def c7_env : stories.JiraEnv :=
  { fields_for_resolver := none
    create_issue := fun _ => none
    fields_for_method2 := none
    update := fun _ _ => false
    issue_link_types := none
    create_issue_link := fun _ => false }

/-- Epic for the C7 witness. -/
def c7_epic : stories.Epic :=
  { key := "RHSTOR-1234", summary := "Test Epic Summary", assignee := none }

/-- Witness for claim C7 at a concrete epic and failing-creation oracle. -/
theorem claim_C7_witness :
    c7_env.create_issue
      (stories.assemble_story_fields c7_env c7_epic stories.kcs_template ("RHSTOR")) = none ∧
    (stories.create_story c7_env c7_epic stories.kcs_template).created = none :=
  ⟨rfl, (claim_C7 c7_env c7_epic stories.kcs_template rfl).1⟩

/-- Claim C8: a raising search makes the duplicate checker answer
all-false with empty lists, never propagating; successful searches give
lists capped at 10 (the cap the code requests from the tracker) with
booleans true exactly when the corresponding list is non-empty. -/
theorem claim_C8 {α : Type} (search : String → Nat → Option (List α)) (epic_key : String) :
    (search (stories.kcs_query epic_key) 10 = none →
      stories.check_existing_stories search epic_key = ⟨[], [], false, false⟩) ∧
    (∀ ks, search (stories.kcs_query epic_key) 10 = some ks →
      search (stories.happy_query epic_key) 10 = none →
      stories.check_existing_stories search epic_key = ⟨[], [], false, false⟩) ∧
    (∀ ks hs, search (stories.kcs_query epic_key) 10 = some ks →
      search (stories.happy_query epic_key) 10 = some hs →
      stories.check_existing_stories search epic_key = ⟨ks, hs, !ks.isEmpty, !hs.isEmpty⟩) ∧
    ((∀ q n l, search q n = some l → l.length ≤ n) →
      (stories.check_existing_stories search epic_key).kcs.length ≤ 10 ∧
      (stories.check_existing_stories search epic_key).happy.length ≤ 10) := by
  have hlen : ∀ (l : List α), decide (l.length > 0) = !l.isEmpty := by
    intro l; cases l <;> simp
  refine ⟨?_, ?_, ?_, ?_⟩
  · intro h
    simp [stories.check_existing_stories, h]
  · intro ks h1 h2
    simp [stories.check_existing_stories, h1, h2]
  · intro ks hs h1 h2
    simp [stories.check_existing_stories, h1, h2, hlen]
  · intro hcap
    cases h1 : search (stories.kcs_query epic_key) 10 with
    | none => simp [stories.check_existing_stories, h1]
    | some ks =>
      cases h2 : search (stories.happy_query epic_key) 10 with
      | none => simp [stories.check_existing_stories, h1, h2]
      | some hs =>
        simp only [stories.check_existing_stories, h1, h2]
        exact ⟨hcap _ _ _ h1, hcap _ _ _ h2⟩

/-- Witness for claim C8 at a concrete raising search oracle. -/
theorem claim_C8_witness :
    stories.check_existing_stories (fun _ _ => (none : Option (List Nat)))
      ("RHSTOR-1234") = ⟨[], [], false, false⟩ :=
  (claim_C8 (fun _ _ => (none : Option (List Nat))) ("RHSTOR-1234")).1 rfl

/-- Claim C9 concerns the two ALLOWED_STATUSES enumerations.  In the
source they are identical: both contain ON_QA and neither contains
On QA, so the view tool rejects the status On QA that the repository's
own unit tests assert it accepts (test_rhstor_tools.py lines 84-98).
This theorem evaluates the code at those inputs. -/
theorem claim_C9_code_eval :
    view.ALLOWED_STATUSES = stories.ALLOWED_STATUSES ∧
    view.ALLOWED_STATUSES.contains ("ON_QA") = true ∧
    view.ALLOWED_STATUSES.contains ("On QA") = false ∧
    view.validate_status (some ("On QA")) = false ∧
    view.validate_status (some ("ON_QA")) = true ∧
    stories.validate_status ("ON_QA") = true := by decide

end RHStor
